import Mathlib

/-!
A shallow embedding of the telemetry layer of `src/server.js` from the
rtmp-selfhost repository: the payload sanitization inside `addLog`, the
two bounded newest-first log stores (`connectionLogs`, capacity 50, and
`performanceLogs`, capacity 100), the periodic system sampler
`updateSystemStats` with its threshold alerting, the HTTP accessors over
this state, and the event-loop behaviour of the `setInterval` timer that
drives the sampler.  JavaScript numbers are modelled as rationals,
`new Date().toISOString()` as an explicit `now : String` argument, and
`console.error` as an explicit list of operator-visible error messages.
-/

namespace RtmpServer

/-- JavaScript values as the telemetry code observes them: the two empty
values, the scalar primitives, functions (only their `typeof` matters
here), and objects as ordered key-value field lists. -/
inductive JSValue where
  | undefined
  | null
  | bool (b : Bool)
  | num (q : ℚ)
  | str (s : String)
  | fn
  | obj (fields : List (String × JSValue))
deriving Repr

/-- The `typeof` operator.  Note `typeof null` is `"object"`. -/
def JSValue.typeofStr : JSValue → String
  | .undefined => "undefined"
  | .null => "object"
  | .bool _ => "boolean"
  | .num _ => "number"
  | .str _ => "string"
  | .fn => "function"
  | .obj _ => "object"

/-- JavaScript truthiness, as used by `if (data.id)` and the like. -/
def JSValue.truthy : JSValue → Bool
  | .undefined => false
  | .null => false
  | .bool b => b
  | .num q => q != 0
  | .str s => s != ""
  | .fn => true
  | .obj _ => true

/-- Association-list lookup over object fields; first binding wins
(JavaScript property tables hold each key at most once). -/
def olookup : List (String × JSValue) → String → Option JSValue
  | [], _ => none
  | kv :: rest, k => if kv.1 = k then some kv.2 else olookup rest k

/-- JavaScript property read `o[k]` on an object: a missing key yields
`undefined`. -/
def objGet (fs : List (String × JSValue)) (k : String) : JSValue :=
  (olookup fs k).getD .undefined

/-- JavaScript property write `o[k] = v`: replaces the value in place
when the key already exists, appends a new field otherwise. -/
def objSet (fs : List (String × JSValue)) (k : String) (v : JSValue) :
    List (String × JSValue) :=
  if (olookup fs k).isSome then
    fs.map fun kv => if kv.1 = k then (kv.1, v) else kv
  else fs ++ [(k, v)]

/-- Property access `base.k`.  Reading a property of `null` or
`undefined` throws a TypeError; on other primitives it yields
`undefined` (strings additionally expose their characters and
length). -/
def JSValue.getProp : JSValue → String → Except String JSValue
  | .undefined, _ => .error "TypeError: cannot read properties of undefined"
  | .null, _ => .error "TypeError: cannot read properties of null"
  | .obj fs, k => .ok (objGet fs k)
  | .str s, k =>
      .ok (if k = "length" then .num s.length
           else
             match k.toNat? with
             | some i =>
                 match s.data.get? i with
                 | some c => .str (String.singleton c)
                 | none => .undefined
             | none => .undefined)
  | _, _ => .ok .undefined

/-- Total indexing `data[key]` for a base already known not to be `null`
or `undefined` (as inside the `Object.keys(data).forEach` loop). -/
def jsIndex (data : JSValue) (k : String) : JSValue :=
  match data.getProp k with
  | .ok v => v
  | .error _ => .undefined

/-- `Object.keys`: own enumerable keys.  Throws on `null` and
`undefined`, yields index strings for strings, nothing for the other
primitives. -/
def jsObjectKeys : JSValue → Except String (List String)
  | .undefined => .error "TypeError: Object.keys called on undefined"
  | .null => .error "TypeError: Object.keys called on null"
  | .obj fs => .ok (fs.map Prod.fst)
  | .str s => .ok ((List.range s.length).map toString)
  | _ => .ok []

/-- A connection-log entry (server.js lines 104-109). -/
structure LogEntry where
  timestamp : String
  type : String
  message : String
  data : JSValue
deriving Repr

/-- A performance-log entry (server.js lines 122-126); it has no
message field. -/
structure PerfLogEntry where
  timestamp : String
  type : String
  data : JSValue
deriving Repr

/-- `maxLogEntries` (server.js line 61). -/
def maxLogEntries : Nat := 50

/-- `maxPerformanceLogs` (server.js line 65). -/
def maxPerformanceLogs : Nat := 100

/-- The `cpu` component of `systemStats`. -/
structure CpuStats where
  usage : ℚ
  temp : ℚ
deriving Repr, DecidableEq

/-- The `memory` component of `systemStats`. -/
structure MemoryStats where
  used : ℚ
  total : ℚ
  percent : ℚ
deriving Repr, DecidableEq

/-- The `network` component of `systemStats`. -/
structure NetworkStats where
  rx : ℚ
  tx : ℚ
deriving Repr, DecidableEq

/-- The `disk` component of `systemStats`. -/
structure DiskStats where
  used : ℚ
  total : ℚ
  percent : ℚ
deriving Repr, DecidableEq

/-- The `streams` component of `systemStats`. -/
structure StreamStats where
  active : Nat
  viewers : Nat
deriving Repr, DecidableEq

/-- A `systemStats` snapshot.  The zero-initialized literal at
server.js lines 68-74 carries no `timestamp` field while every snapshot
built by a successful sampling cycle does, hence the `Option`. -/
structure SystemStats where
  cpu : CpuStats
  memory : MemoryStats
  network : NetworkStats
  disk : DiskStats
  streams : StreamStats
  timestamp : Option String
deriving Repr, DecidableEq

/-- The zero-initialized `systemStats` literal (server.js lines 68-74). -/
def initialSystemStats : SystemStats :=
  { cpu := { usage := 0, temp := 0 }
    memory := { used := 0, total := 0, percent := 0 }
    network := { rx := 0, tx := 0 }
    disk := { used := 0, total := 0, percent := 0 }
    streams := { active := 0, viewers := 0 }
    timestamp := none }

/-- The process-wide mutable telemetry state of server.js:
`connectionLogs` (line 60), `performanceLogs` (line 64), `systemStats`
(lines 68-74), plus the `console.error` operator-visible error
channel. -/
structure ServerState where
  connectionLogs : List LogEntry
  performanceLogs : List PerfLogEntry
  systemStats : SystemStats
  errors : List String
deriving Repr

/-- The shared ring-buffer step of both log stores: `unshift` followed
by `splice(cap)` whenever the length exceeds `cap` (server.js lines
111-116 and 128-132). -/
def boundedUnshift {α : Type} (cap : Nat) (e : α) (l : List α) : List α :=
  let l' := e :: l
  if l'.length > cap then l'.take cap else l'

/-- The body of the `Object.keys(data).forEach` loop of `addLog`
(server.js lines 98-102), specialized to an object payload with fields
`fs`: a key is copied through only when it is not already set to a
truthy value and its payload value is neither object- nor
function-typed. -/
def copyStep (fs : List (String × JSValue)) (acc : List (String × JSValue))
    (key : String) : List (String × JSValue) :=
  let cur := objGet acc key
  let v := objGet fs key
  if !cur.truthy && (v.typeofStr != "object") && (v.typeofStr != "function") then
    objSet acc key v
  else acc

/-- The fields accumulated by the three guarded extractions of `addLog`
(server.js lines 80-95: `id`, `streamPath`, and the `args`
sub-extraction) for an object payload with fields `fs`. -/
def sanitizeInit (fs : List (String × JSValue)) : List (String × JSValue) :=
  let idv := objGet fs "id"
  let s1 :=
    if idv.truthy then
      objSet [] "id" (if idv.typeofStr = "string" then idv else .str "[object]")
    else []
  let spv := objGet fs "streamPath"
  let s2 := if spv.truthy then objSet s1 "streamPath" spv else s1
  let argsv := objGet fs "args"
  if argsv.truthy && (argsv.typeofStr == "object") then
    objSet s2 "args"
      (.obj [("app", jsIndex argsv "app"), ("tcUrl", jsIndex argsv "tcUrl"),
             ("type", jsIndex argsv "type")])
  else s2

/-- The whole sanitization of `addLog` (server.js lines 77-102) for an
object payload: the guarded extractions followed by the copy loop over
the payload's own keys. -/
def sanitizeFields (fs : List (String × JSValue)) : List (String × JSValue) :=
  (fs.map Prod.fst).foldl (copyStep fs) (sanitizeInit fs)

/-- The sanitization block of `addLog` (server.js lines 77-102) on an
arbitrary payload.  Property reads on a `null` or `undefined` payload
throw, hence the `Except`. -/
def sanitizeData (data : JSValue) : Except String JSValue := do
  let idv ← data.getProp "id"
  let s1 : List (String × JSValue) :=
    if idv.truthy then
      objSet [] "id" (if idv.typeofStr = "string" then idv else .str "[object]")
    else []
  let spv ← data.getProp "streamPath"
  let s2 := if spv.truthy then objSet s1 "streamPath" spv else s1
  let argsv ← data.getProp "args"
  let s3 ←
    if argsv.truthy && (argsv.typeofStr == "object") then do
      let app ← argsv.getProp "app"
      let tcUrl ← argsv.getProp "tcUrl"
      let ty ← argsv.getProp "type"
      pure (objSet s2 "args" (.obj [("app", app), ("tcUrl", tcUrl), ("type", ty)]))
    else pure s2
  let keys ← jsObjectKeys data
  let s4 := keys.foldl (fun acc key =>
      let cur := objGet acc key
      let v := jsIndex data key
      if !cur.truthy && (v.typeofStr != "object") && (v.typeofStr != "function") then
        objSet acc key v
      else acc) s3
  pure (.obj s4)

/-- `addLog(type, message, data)` (server.js lines 76-119): sanitizes
the payload, stores the entry newest-first in `connectionLogs`, and
keeps only the most recent `maxLogEntries` entries.  `now` stands for
`new Date().toISOString()`. -/
def addLog (now ty message : String) (data : JSValue) (st : ServerState) :
    Except String ServerState := do
  let sanitizedData ← sanitizeData data
  let logEntry : LogEntry :=
    { timestamp := now, type := ty, message := message, data := sanitizedData }
  pure { st with
          connectionLogs := boundedUnshift maxLogEntries logEntry st.connectionLogs }

/-- `addPerformanceLog(type, data)` (server.js lines 121-133): stores
the entry newest-first, keeping the most recent `maxPerformanceLogs`
entries; the data is stored as given, with no sanitization. -/
def addPerformanceLog (now ty : String) (data : JSValue) (st : ServerState) :
    ServerState :=
  let logEntry : PerfLogEntry := { timestamp := now, type := ty, data := data }
  { st with
      performanceLogs := boundedUnshift maxPerformanceLogs logEntry st.performanceLogs }

/-- The fields of `si.currentLoad()` consumed by the sampler. -/
structure CurrentLoadInfo where
  currentLoad : ℚ
deriving Repr

/-- The fields of `si.cpuTemperature()` consumed by the sampler;
`main` may be null on hardware without a sensor, hence the `Option`. -/
structure CpuTempInfo where
  main : Option ℚ
deriving Repr

/-- The fields of `si.mem()` consumed by the sampler (bytes). -/
structure MemInfo where
  used : ℚ
  total : ℚ
deriving Repr

/-- The per-interface fields of `si.networkStats()` consumed by the
sampler (bytes per second). -/
structure NetIfStats where
  rx_sec : ℚ
  tx_sec : ℚ
deriving Repr

/-- The per-volume fields of `si.fsSize()` consumed by the sampler. -/
structure FsVolume where
  used : ℚ
  size : ℚ
  use : ℚ
deriving Repr

/-- One batch of the five systeminformation queries awaited by
`updateSystemStats`; each may reject. -/
structure ProviderBatch where
  currentLoad : Except String CurrentLoadInfo
  cpuTemperature : Except String CpuTempInfo
  mem : Except String MemInfo
  networkStats : Except String (List NetIfStats)
  fsSize : Except String (List FsVolume)

/-- The five sequential awaits of `updateSystemStats` (server.js lines
139-149); the first rejection aborts the whole batch. -/
def batchExtract (p : ProviderBatch) :
    Except String (CurrentLoadInfo × CpuTempInfo × MemInfo × List NetIfStats × List FsVolume) := do
  let cpuData ← p.currentLoad
  let cpuTemp ← p.cpuTemperature
  let memData ← p.mem
  let networkData ← p.networkStats
  let diskData ← p.fsSize
  pure (cpuData, cpuTemp, memData, networkData, diskData)

/-- `Math.round`: round half towards positive infinity. -/
def jsRound (q : ℚ) : ℤ := ⌊q + 1 / 2⌋

/-- `Math.round(x * 100) / 100`, the two-decimal rounding used
throughout `updateSystemStats`. -/
def round2 (q : ℚ) : ℚ := (jsRound (q * 100) : ℚ) / 100

/-- The new snapshot built by a successful sampling cycle (server.js
lines 152-178).  `activeStreams` is literally `Object.keys({})` — the
session counter was never wired in. -/
def computeSystemStats (now : String) (cpuData : CurrentLoadInfo)
    (cpuTemp : CpuTempInfo) (memData : MemInfo)
    (networkData : List NetIfStats) (diskData : List FsVolume) : SystemStats :=
  let activeStreams : List String := (jsObjectKeys (.obj [])).toOption.getD []
  { cpu := { usage := round2 cpuData.currentLoad, temp := cpuTemp.main.getD 0 }
    memory :=
      { used := round2 (memData.used / 1024 / 1024 / 1024)
        total := round2 (memData.total / 1024 / 1024 / 1024)
        percent := round2 (memData.used / memData.total * 100) }
    network :=
      { rx := match networkData with
          | [] => 0
          | n :: _ => round2 (n.rx_sec / 1024 / 1024)
        tx := match networkData with
          | [] => 0
          | n :: _ => round2 (n.tx_sec / 1024 / 1024) }
    disk :=
      { used := match diskData with
          | [] => 0
          | d :: _ => round2 (d.used / 1024 / 1024 / 1024)
        total := match diskData with
          | [] => 0
          | d :: _ => round2 (d.size / 1024 / 1024 / 1024)
        percent := match diskData with
          | [] => 0
          | d :: _ => round2 d.use }
    streams := { active := activeStreams.length, viewers := 0 }
    timestamp := some now }

/-- The data carried by a `high_usage` performance entry (server.js
lines 182-186): current cpu usage, memory percentage, and the active
stream count. -/
def highUsageData (stats : SystemStats) : JSValue :=
  .obj [("cpu", .num stats.cpu.usage), ("memory", .num stats.memory.percent),
        ("streams", .num stats.streams.active)]

/-- The alert message interpolated at server.js line 188; JavaScript
number formatting is abstracted by `toString` on the rationals. -/
def highUsageMessage (stats : SystemStats) : String :=
  "High resource usage detected - CPU: " ++ toString stats.cpu.usage ++
    "%, Memory: " ++ toString stats.memory.percent ++ "%"

/-- One cycle of `updateSystemStats` (server.js lines 136-194), given
the batch of provider results: on success the snapshot is rebuilt whole
and the 80% / 85% thresholds checked; any rejection is caught, reported
via `console.error`, and leaves the state otherwise untouched (the
process keeps running). -/
def updateSystemStats (now : String) (p : ProviderBatch) (st : ServerState) :
    ServerState :=
  match batchExtract p with
  | .error e =>
      { st with errors := ("Error updating system stats: " ++ e) :: st.errors }
  | .ok (cpuData, cpuTemp, memData, networkData, diskData) =>
      let stats := computeSystemStats now cpuData cpuTemp memData networkData diskData
      let st1 := { st with systemStats := stats }
      if stats.cpu.usage > 80 ∨ stats.memory.percent > 85 then
        let st2 := addPerformanceLog now "high_usage" (highUsageData stats) st1
        match addLog now "system" (highUsageMessage stats) (.obj []) st2 with
        | .ok st3 => st3
        | .error e =>
            { st2 with errors := ("Error updating system stats: " ++ e) :: st2.errors }
      else st1

/-- The response of GET /api/logs (server.js lines 215-221). -/
structure LogsResponse where
  logs : List LogEntry
  count : Nat
  maxEntries : Nat
deriving Repr

/-- The GET /api/logs handler (server.js lines 215-221). -/
def apiGetLogs (st : ServerState) : LogsResponse :=
  { logs := st.connectionLogs, count := st.connectionLogs.length,
    maxEntries := maxLogEntries }

/-- The response of DELETE /api/logs (server.js line 227). -/
structure ClearResponse where
  success : Bool
  message : String
deriving Repr, DecidableEq

/-- The DELETE /api/logs handler (server.js lines 224-228): truncates
`connectionLogs`, logs the clear as a system event, and answers with a
success marker. -/
def clearConnectionLog (now : String) (st : ServerState) :
    Except String (ServerState × ClearResponse) := do
  let st1 := { st with connectionLogs := ([] : List LogEntry) }
  let st2 ← addLog now "system" "Connection logs cleared" (.obj []) st1
  pure (st2, { success := true, message := "Logs cleared" })

/-- The response of GET /api/performance (server.js lines 231-238). -/
structure PerformanceResponse where
  current : SystemStats
  history : List PerfLogEntry
  uptime : ℚ
  nodeMemory : JSValue
deriving Repr

/-- The GET /api/performance handler (server.js lines 231-238);
`uptime` and `nodeMemory` pass process-level readings straight
through. -/
def apiGetPerformance (st : ServerState) (uptime : ℚ) (nodeMemory : JSValue) :
    PerformanceResponse :=
  { current := st.systemStats, history := st.performanceLogs,
    uptime := uptime, nodeMemory := nodeMemory }

/-- The number of `updateSystemStats` invocations currently in flight
under `setInterval(updateSystemStats, 10000)` (server.js lines
323-324): each invocation suspends at its awaits and completes only
later. -/
structure SamplerSched where
  inFlight : Nat
deriving Repr, DecidableEq

/-- Event-loop steps of the sampler timer exactly as written: a timer
tick always starts a new `updateSystemStats` invocation — server.js
lines 323-324 install the callback with no in-progress guard — and a
running invocation eventually completes. -/
inductive SchedStep : SamplerSched → SamplerSched → Prop
  | tick (s : SamplerSched) : SchedStep s ⟨s.inFlight + 1⟩
  | complete (s : SamplerSched) (h : 0 < s.inFlight) : SchedStep s ⟨s.inFlight - 1⟩

/-- Folding a sequence of ring-buffer appends into a store, oldest
first: each element is pushed with the `unshift`-then-`splice` step the
two log stores share. -/
def appendAll {α : Type} (cap : Nat) (es : List α) (init : List α) : List α :=
  es.foldl (fun l e => boundedUnshift cap e l) init

mutual

/-- Nesting depth of a value: scalars are flat, an object is one level
deeper than its deepest field value. -/
def JSValue.depth : JSValue → Nat
  | .obj fs => 1 + JSValue.depthFields fs
  | _ => 0

/-- Depth of the deepest value in a field list. -/
def JSValue.depthFields : List (String × JSValue) → Nat
  | [] => 0
  | kv :: rest => max kv.2.depth (JSValue.depthFields rest)

end

/-! ### Lemmas about object field tables -/

theorem olookup_append (l1 l2 : List (String × JSValue)) (k : String) :
    olookup (l1 ++ l2) k =
      match olookup l1 k with
      | some v => some v
      | none => olookup l2 k := by
  induction l1 with
  | nil => simp [olookup]
  | cons kv rest ih =>
      by_cases h : kv.1 = k <;> simp [olookup, h, ih]

theorem olookup_map_replace (fs : List (String × JSValue)) (k : String) (v : JSValue) :
    olookup (fs.map fun kv => if kv.1 = k then (kv.1, v) else kv) k =
      (olookup fs k).map (fun _ => v) := by
  induction fs with
  | nil => simp [olookup]
  | cons kv rest ih =>
      by_cases h : kv.1 = k <;> simp [olookup, h, ih]

theorem olookup_map_replace_ne (fs : List (String × JSValue)) {k k' : String}
    (v : JSValue) (h : k' ≠ k) :
    olookup (fs.map fun kv => if kv.1 = k then (kv.1, v) else kv) k' =
      olookup fs k' := by
  induction fs with
  | nil => simp [olookup]
  | cons kv rest ih =>
      by_cases hk : kv.1 = k
      · have hkk : ¬ (k = k') := fun hh => h hh.symm
        simp [olookup, hk, hkk, ih]
      · by_cases hk' : kv.1 = k'
        · simp [olookup, hk, hk', h, ih]
        · simp [olookup, hk, hk', ih]

theorem olookup_objSet_self (fs : List (String × JSValue)) (k : String) (v : JSValue) :
    olookup (objSet fs k v) k = some v := by
  unfold objSet
  by_cases h : (olookup fs k).isSome
  · rcases Option.isSome_iff_exists.mp h with ⟨w, hw⟩
    simp [h, olookup_map_replace, hw]
  · have hnone : olookup fs k = none := Option.not_isSome_iff_eq_none.mp h
    simp [h, olookup_append, hnone, olookup]

theorem olookup_objSet_ne (fs : List (String × JSValue)) {k k' : String}
    (v : JSValue) (h : k' ≠ k) :
    olookup (objSet fs k v) k' = olookup fs k' := by
  unfold objSet
  by_cases hs : (olookup fs k).isSome
  · simp [hs, olookup_map_replace_ne fs v h]
  · rw [if_neg hs, olookup_append]
    have hkv : olookup [(k, v)] k' = none := by
      have hne : ¬ (k = k') := fun hh => h hh.symm
      simp [olookup, hne]
    cases hlk : olookup fs k' with
    | none => simp [hkv]
    | some w => simp

theorem olookup_isSome_iff (fs : List (String × JSValue)) (k : String) :
    (olookup fs k).isSome ↔ k ∈ fs.map Prod.fst := by
  induction fs with
  | nil => simp [olookup]
  | cons kv rest ih =>
      by_cases h : kv.1 = k
      · simp [olookup, h]
      · have hne : ¬ (k = kv.1) := fun hh => h hh.symm
        simp [olookup, h, ih, hne]

theorem olookup_eq_none_of_not_mem {fs : List (String × JSValue)} {k : String}
    (h : k ∉ fs.map Prod.fst) : olookup fs k = none := by
  have := (olookup_isSome_iff fs k).not.mpr h
  exact Option.not_isSome_iff_eq_none.mp this

/-! ### Lemmas about the copy loop of the sanitizer -/

theorem olookup_copyStep_ne (fs acc : List (String × JSValue)) {k key : String}
    (h : k ≠ key) : olookup (copyStep fs acc key) k = olookup acc k := by
  simp only [copyStep]
  split
  · exact olookup_objSet_ne acc _ h
  · rfl

theorem foldl_copyStep_notmem (fs : List (String × JSValue)) {keys : List String}
    (init : List (String × JSValue)) {k : String} (hk : k ∉ keys) :
    olookup (keys.foldl (copyStep fs) init) k = olookup init k := by
  induction keys generalizing init with
  | nil => rfl
  | cons key rest ih =>
      have hne : k ≠ key := fun hh => hk (by simp [hh])
      have hrest : k ∉ rest := fun hh => hk (by simp [hh])
      rw [List.foldl_cons, ih (copyStep fs init key) hrest,
        olookup_copyStep_ne fs init hne]

theorem foldl_copyStep_mem (fs : List (String × JSValue)) {keys : List String}
    (init : List (String × JSValue)) {k : String} (hnd : keys.Nodup)
    (hk : k ∈ keys) :
    olookup (keys.foldl (copyStep fs) init) k =
      if !(objGet init k).truthy && ((objGet fs k).typeofStr != "object") &&
          ((objGet fs k).typeofStr != "function") then
        some (objGet fs k)
      else olookup init k := by
  induction keys generalizing init with
  | nil => cases hk
  | cons key rest ih =>
      rw [List.foldl_cons]
      by_cases hke : k = key
      · subst hke
        have hrest : k ∉ rest := (List.nodup_cons.mp hnd).1
        rw [foldl_copyStep_notmem fs _ hrest]
        by_cases hc : (!(objGet init k).truthy && ((objGet fs k).typeofStr != "object") &&
            ((objGet fs k).typeofStr != "function")) = true
        · rw [if_pos hc]
          simp only [copyStep]
          rw [if_pos hc, olookup_objSet_self]
        · rw [if_neg hc]
          simp only [copyStep]
          rw [if_neg hc]
      · have hkr : k ∈ rest := by
          rcases List.mem_cons.mp hk with h | h
          · exact absurd h hke
          · exact h
        rw [ih (copyStep fs init key) (List.nodup_cons.mp hnd).2 hkr]
        have hlk := @olookup_copyStep_ne fs init k key hke
        unfold objGet
        rw [hlk]

theorem objSet_values {P : JSValue → Prop} {fs : List (String × JSValue)}
    {k : String} {v : JSValue} (hfs : ∀ kv ∈ fs, P kv.2) (hv : P v) :
    ∀ kv ∈ objSet fs k v, P kv.2 := by
  intro kv hkv
  unfold objSet at hkv
  by_cases hs : (olookup fs k).isSome
  · rw [if_pos hs] at hkv
    rcases List.mem_map.mp hkv with ⟨kw, hkw, heq⟩
    by_cases hk : kw.1 = k
    · rw [if_pos hk] at heq
      rw [← heq]
      exact hv
    · rw [if_neg hk] at heq
      rw [← heq]
      exact hfs kw hkw
  · rw [if_neg hs] at hkv
    rcases List.mem_append.mp hkv with hmem | hmem
    · exact hfs kv hmem
    · rcases List.mem_singleton.mp hmem with rfl
      exact hv

theorem foldl_copyStep_values {P : JSValue → Prop}
    (hP : ∀ v : JSValue, v.typeofStr ≠ "object" → P v)
    (fs : List (String × JSValue)) (keys : List String)
    {init : List (String × JSValue)} (hinit : ∀ kv ∈ init, P kv.2) :
    ∀ kv ∈ keys.foldl (copyStep fs) init, P kv.2 := by
  induction keys generalizing init with
  | nil => exact hinit
  | cons key rest ih =>
      rw [List.foldl_cons]
      refine ih ?_
      intro kv hkv
      simp only [copyStep] at hkv
      split at hkv
      · next hc =>
          refine objSet_values hinit ?_ kv hkv
          refine hP _ ?_
          have hc' := hc
          simp only [Bool.and_eq_true, bne_iff_ne] at hc'
          exact hc'.1.2
      · exact hinit kv hkv

theorem ok_bind {α β : Type} (a : α) (f : α → Except String β) :
    (Except.ok a : Except String α) >>= f = f a := rfl

theorem error_bind {α β : Type} (e : String) (f : α → Except String β) :
    (Except.error e : Except String α) >>= f = .error e := rfl

theorem map_ok {α β : Type} (f : α → β) (a : α) :
    f <$> (Except.ok a : Except String α) = .ok (f a) := rfl

theorem map_error {α β : Type} (f : α → β) (e : String) :
    f <$> (Except.error e : Except String α) = .error e := rfl

theorem sanitizeData_obj (fs : List (String × JSValue)) :
    sanitizeData (JSValue.obj fs) = .ok (.obj (sanitizeFields fs)) := by
  unfold sanitizeData sanitizeFields sanitizeInit
  simp only [JSValue.getProp, jsObjectKeys, ok_bind, pure_bind]
  generalize objGet fs "args" = argsv
  by_cases hc : (argsv.truthy && (argsv.typeofStr == "object")) = true
  · rcases argsv with _ | _ | b | q | s | _ | afs
    · simp [JSValue.truthy] at hc
    · simp [JSValue.truthy] at hc
    · simp [JSValue.truthy, JSValue.typeofStr] at hc
    · simp [JSValue.truthy, JSValue.typeofStr] at hc
    · simp [JSValue.truthy, JSValue.typeofStr] at hc
    · simp [JSValue.typeofStr] at hc
    · rw [if_pos hc, if_pos hc]
      rfl
  · rw [if_neg hc, if_neg hc]
    rfl

theorem truthy_object_is_obj {v : JSValue} (ht : v.truthy = true)
    (hty : v.typeofStr = "object") : ∃ afs, v = JSValue.obj afs := by
  cases v with
  | obj afs => exact ⟨afs, rfl⟩
  | undefined => simp [JSValue.truthy] at ht
  | null => simp [JSValue.truthy] at ht
  | bool b => simp [JSValue.typeofStr] at hty
  | num q => simp [JSValue.typeofStr] at hty
  | str s => simp [JSValue.typeofStr] at hty
  | fn => simp [JSValue.typeofStr] at hty

theorem depth_eq_zero_of_typeof_ne_object {v : JSValue}
    (h : v.typeofStr ≠ "object") : v.depth = 0 := by
  cases v <;> first
    | rfl
    | exact absurd rfl h

theorem depth_eq_zero_of_typeof_string {v : JSValue}
    (h : v.typeofStr = "string") : v.depth = 0 := by
  cases v <;> first
    | rfl
    | simp [JSValue.typeofStr] at h

theorem depthFields_le {fs : List (String × JSValue)} {n : Nat}
    (h : ∀ kv ∈ fs, kv.2.depth ≤ n) : JSValue.depthFields fs ≤ n := by
  induction fs with
  | nil => simp [JSValue.depthFields]
  | cons kv rest ih =>
      rw [JSValue.depthFields]
      have h1 := h kv (List.mem_cons_self kv rest)
      have h2 := ih fun kw hkw => h kw (List.mem_cons_of_mem kv hkw)
      omega

theorem sanitizeInit_lookup_other (fs : List (String × JSValue)) {k : String}
    (h1 : k ≠ "id") (h2 : k ≠ "streamPath") (h3 : k ≠ "args") :
    olookup (sanitizeInit fs) k = none := by
  have h1' : ¬ ("id" = k) := fun hh => h1 hh.symm
  have h2' : ¬ ("streamPath" = k) := fun hh => h2 hh.symm
  have h3' : ¬ ("args" = k) := fun hh => h3 hh.symm
  simp only [sanitizeInit]
  by_cases ha : ((objGet fs "args").truthy &&
      ((objGet fs "args").typeofStr == "object")) = true <;>
  by_cases hsp : (objGet fs "streamPath").truthy = true <;>
  by_cases hid : (objGet fs "id").truthy = true <;>
    simp [ha, hsp, hid, h1', h2', h3', olookup_objSet_ne _ _ h1,
      olookup_objSet_ne _ _ h2, olookup_objSet_ne _ _ h3, olookup]

theorem sanitizeInit_lookup_id (fs : List (String × JSValue)) :
    olookup (sanitizeInit fs) "id" =
      if (objGet fs "id").truthy then
        some (if (objGet fs "id").typeofStr = "string" then objGet fs "id"
              else .str "[object]")
      else none := by
  have hids : ("id" : String) ≠ "streamPath" := by decide
  have hida : ("id" : String) ≠ "args" := by decide
  simp only [sanitizeInit]
  by_cases ha : ((objGet fs "args").truthy &&
      ((objGet fs "args").typeofStr == "object")) = true <;>
  by_cases hsp : (objGet fs "streamPath").truthy = true <;>
  by_cases hid : (objGet fs "id").truthy = true <;>
    simp [ha, hsp, hid, olookup_objSet_ne _ _ hids, olookup_objSet_ne _ _ hida,
      olookup_objSet_self, olookup]

theorem sanitizeInit_lookup_streamPath (fs : List (String × JSValue)) :
    olookup (sanitizeInit fs) "streamPath" =
      if (objGet fs "streamPath").truthy then some (objGet fs "streamPath")
      else none := by
  have hspa : ("streamPath" : String) ≠ "args" := by decide
  have hspi : ("streamPath" : String) ≠ "id" := by decide
  simp only [sanitizeInit]
  by_cases ha : ((objGet fs "args").truthy &&
      ((objGet fs "args").typeofStr == "object")) = true <;>
  by_cases hsp : (objGet fs "streamPath").truthy = true <;>
  by_cases hid : (objGet fs "id").truthy = true <;>
    simp [ha, hsp, hid, olookup_objSet_ne _ _ hspa, olookup_objSet_ne _ _ hspi,
      olookup_objSet_self, olookup]

/-! ### Ring-buffer lemmas -/

theorem boundedUnshift_length {α : Type} (cap : Nat) (e : α) (l : List α) :
    (boundedUnshift cap e l).length = min (l.length + 1) cap := by
  simp only [boundedUnshift]
  split
  · next h =>
      simp only [List.length_take, List.length_cons]
      simp only [List.length_cons] at h
      omega
  · next h =>
      simp only [List.length_cons]
      simp only [List.length_cons] at h
      omega

theorem boundedUnshift_head {α : Type} {cap : Nat} (hcap : 0 < cap) (e : α)
    (l : List α) : (boundedUnshift cap e l).head? = some e := by
  simp only [boundedUnshift]
  split
  · rcases cap with _ | n
    · omega
    · rw [List.take_succ_cons]
      rfl
  · rfl

theorem appendAll_cons {α : Type} (cap : Nat) (e : α) (rest : List α)
    (init : List α) :
    appendAll cap (e :: rest) init = appendAll cap rest (boundedUnshift cap e init) :=
  rfl

theorem appendAll_snoc {α : Type} (cap : Nat) (es : List α) (e : α)
    (init : List α) :
    appendAll cap (es ++ [e]) init = boundedUnshift cap e (appendAll cap es init) := by
  simp [appendAll, List.foldl_append]

theorem appendAll_length {α : Type} (cap : Nat) (es : List α) (init : List α)
    (hinit : init.length ≤ cap) :
    (appendAll cap es init).length = min (init.length + es.length) cap := by
  induction es generalizing init with
  | nil =>
      simp only [appendAll, List.foldl_nil, List.length_nil]
      omega
  | cons e rest ih =>
      rw [appendAll_cons]
      have h1 := boundedUnshift_length cap e init
      have h2 := ih (boundedUnshift cap e init) (by omega)
      rw [h2, h1]
      simp only [List.length_cons]
      omega

/-! ### Sampler helper lemmas -/

theorem addLog_obj_nil (now ty msg : String) (st : ServerState) :
    addLog now ty msg (.obj []) st =
      .ok { st with
              connectionLogs := boundedUnshift maxLogEntries
                ⟨now, ty, msg, .obj []⟩ st.connectionLogs } := rfl

theorem updateSystemStats_ok (now : String) (p : ProviderBatch) (st : ServerState)
    (cpuData : CurrentLoadInfo) (cpuTemp : CpuTempInfo) (memData : MemInfo)
    (networkData : List NetIfStats) (diskData : List FsVolume)
    (h : batchExtract p = .ok (cpuData, cpuTemp, memData, networkData, diskData)) :
    updateSystemStats now p st =
      (if (computeSystemStats now cpuData cpuTemp memData networkData diskData).cpu.usage > 80 ∨
          (computeSystemStats now cpuData cpuTemp memData networkData diskData).memory.percent > 85 then
        { st with
            systemStats := computeSystemStats now cpuData cpuTemp memData networkData diskData
            performanceLogs := boundedUnshift maxPerformanceLogs
              ⟨now, "high_usage",
               highUsageData (computeSystemStats now cpuData cpuTemp memData networkData diskData)⟩
              st.performanceLogs
            connectionLogs := boundedUnshift maxLogEntries
              ⟨now, "system",
               highUsageMessage (computeSystemStats now cpuData cpuTemp memData networkData diskData),
               .obj []⟩
              st.connectionLogs }
      else
        { st with
            systemStats := computeSystemStats now cpuData cpuTemp memData networkData diskData }) := by
  unfold updateSystemStats
  rw [h]
  dsimp only
  by_cases hc : (computeSystemStats now cpuData cpuTemp memData networkData diskData).cpu.usage > 80 ∨
      (computeSystemStats now cpuData cpuTemp memData networkData diskData).memory.percent > 85
  · rw [if_pos hc, if_pos hc]
    rw [show addPerformanceLog now "high_usage"
        (highUsageData (computeSystemStats now cpuData cpuTemp memData networkData diskData))
        { st with systemStats := computeSystemStats now cpuData cpuTemp memData networkData diskData } =
        { st with
            systemStats := computeSystemStats now cpuData cpuTemp memData networkData diskData
            performanceLogs := boundedUnshift maxPerformanceLogs
              ⟨now, "high_usage",
               highUsageData (computeSystemStats now cpuData cpuTemp memData networkData diskData)⟩
              st.performanceLogs }
      from rfl]
    rw [addLog_obj_nil]
  · rw [if_neg hc, if_neg hc]

/-! ### Concrete inputs used by witnesses and counterexamples -/

/-- A telemetry state with empty logs and the zero-initialized stats. -/
def demoState : ServerState :=
  { connectionLogs := [], performanceLogs := [],
    systemStats := initialSystemStats, errors := [] }

/-- A sample connection-log entry. -/
def demoEntry : LogEntry :=
  { timestamp := "t1", type := "connection", message := "client connected",
    data := .obj [] }

/-- `demoState` after one `addLog` of `demoEntry`'s fields. -/
def demoAppended : ServerState := { demoState with connectionLogs := [demoEntry] }

/-- A provider batch whose first query rejects. -/
def failBatch : ProviderBatch :=
  { currentLoad := .error "ENOENT", cpuTemperature := .ok ⟨none⟩,
    mem := .ok ⟨0, 1⟩, networkStats := .ok [], fsSize := .ok [] }

/-- A successful provider batch reporting 81% cpu load and 50% memory
usage: above the cpu threshold. -/
def alertBatch : ProviderBatch :=
  { currentLoad := .ok ⟨81⟩, cpuTemperature := .ok ⟨none⟩,
    mem := .ok ⟨2 ^ 30, 2 ^ 31⟩, networkStats := .ok [], fsSize := .ok [] }

/-- A successful provider batch reporting 50% cpu load and 50% memory
usage: below both thresholds. -/
def quietBatch : ProviderBatch :=
  { currentLoad := .ok ⟨50⟩, cpuTemperature := .ok ⟨none⟩,
    mem := .ok ⟨2 ^ 30, 2 ^ 31⟩, networkStats := .ok [], fsSize := .ok [] }

/-- The snapshot computed from `alertBatch`. -/
def alertStats : SystemStats :=
  computeSystemStats "t3" ⟨81⟩ ⟨none⟩ ⟨2 ^ 30, 2 ^ 31⟩ [] []

/-- The snapshot computed from `quietBatch`. -/
def quietStats : SystemStats :=
  computeSystemStats "t5" ⟨50⟩ ⟨none⟩ ⟨2 ^ 30, 2 ^ 31⟩ [] []

/-! ### Claim theorems -/

/-- C1: for every sequence of N appends on either ring-buffer log store
(connection log, capacity `maxLogEntries` = 50, via `addLog`;
performance log, capacity `maxPerformanceLogs` = 100, via
`addPerformanceLog`), the store then holds exactly min(N, C) entries,
the head of a snapshot is always the most recently appended entry, the
length never exceeds C after any prefix of the appends, and each of the
two append operations steps its store by exactly the bounded-unshift
ring-buffer step. -/
theorem ring_buffer_capacity_and_order :
    (∀ es : List LogEntry,
      (appendAll maxLogEntries es []).length = min es.length maxLogEntries) ∧
    (∀ es : List PerfLogEntry,
      (appendAll maxPerformanceLogs es []).length = min es.length maxPerformanceLogs) ∧
    (∀ (es : List LogEntry) (e : LogEntry),
      (appendAll maxLogEntries (es ++ [e]) []).head? = some e) ∧
    (∀ (es : List PerfLogEntry) (e : PerfLogEntry),
      (appendAll maxPerformanceLogs (es ++ [e]) []).head? = some e) ∧
    (∀ es p : List LogEntry, p <+: es →
      (appendAll maxLogEntries p []).length ≤ maxLogEntries) ∧
    (∀ es p : List PerfLogEntry, p <+: es →
      (appendAll maxPerformanceLogs p []).length ≤ maxPerformanceLogs) ∧
    (∀ (now ty msg : String) (data : JSValue) (st st' : ServerState),
      addLog now ty msg data st = .ok st' →
      ∃ e, st'.connectionLogs = boundedUnshift maxLogEntries e st.connectionLogs ∧
        st'.performanceLogs = st.performanceLogs) ∧
    (∀ (now ty : String) (data : JSValue) (st : ServerState),
      (addPerformanceLog now ty data st).performanceLogs =
        boundedUnshift maxPerformanceLogs ⟨now, ty, data⟩ st.performanceLogs ∧
      (addPerformanceLog now ty data st).connectionLogs = st.connectionLogs) := by
  refine ⟨?_, ?_, ?_, ?_, ?_, ?_, ?_, ?_⟩
  · intro es
    have := appendAll_length maxLogEntries es [] (by simp [maxLogEntries])
    simpa using this
  · intro es
    have := appendAll_length maxPerformanceLogs es [] (by simp [maxPerformanceLogs])
    simpa using this
  · intro es e
    rw [appendAll_snoc]
    exact boundedUnshift_head (by simp [maxLogEntries]) e _
  · intro es e
    rw [appendAll_snoc]
    exact boundedUnshift_head (by simp [maxPerformanceLogs]) e _
  · intro es p _
    have := appendAll_length maxLogEntries p [] (by simp [maxLogEntries])
    simp only [List.length_nil, Nat.zero_add] at this
    omega
  · intro es p _
    have := appendAll_length maxPerformanceLogs p [] (by simp [maxPerformanceLogs])
    simp only [List.length_nil, Nat.zero_add] at this
    omega
  · intro now ty msg data st st' h
    cases hs : sanitizeData data with
    | error e => simp [addLog, hs] at h
    | ok sd =>
        simp only [addLog, hs, ok_bind, pure, Except.pure, Except.ok.injEq] at h
        exact ⟨⟨now, ty, msg, sd⟩, by rw [← h], by rw [← h]⟩
  · intro now ty data st
    exact ⟨rfl, rfl⟩

/-- C1 witness: concrete instances of the hypotheses of
`ring_buffer_capacity_and_order`: a one-element prefix of a two-element
append sequence, and a concrete successful `addLog` call. -/
theorem ring_buffer_capacity_and_order_witness :
    (appendAll maxLogEntries [demoEntry] []).length ≤ maxLogEntries ∧
    (∃ e, demoAppended.connectionLogs = boundedUnshift maxLogEntries e demoState.connectionLogs ∧
      demoAppended.performanceLogs = demoState.performanceLogs) := by
  obtain ⟨-, -, -, -, h5, -, h7, -⟩ := ring_buffer_capacity_and_order
  refine ⟨h5 [demoEntry, demoEntry] [demoEntry] ⟨[demoEntry], rfl⟩, ?_⟩
  exact h7 "t1" "connection" "client connected" (.obj []) demoState demoAppended rfl

/-- C8: the DELETE /api/logs handler always succeeds with the success
marker, and leaves the connection log holding exactly one system-tagged
entry noting the clear, touching nothing else in the state; in
particular on an already-empty log it is a no-op save for that entry. -/
theorem clear_logs_appends_system_entry (now : String) (st : ServerState) :
    clearConnectionLog now st =
      .ok ({ st with
              connectionLogs := [⟨now, "system", "Connection logs cleared", .obj []⟩] },
           { success := true, message := "Logs cleared" }) := by
  unfold clearConnectionLog
  dsimp only
  rw [addLog_obj_nil]
  rfl

/-- C5 counterexample: under the scheduler semantics of
`setInterval(updateSystemStats, 10000)` as written, the state with two
sampler cycles in flight is reachable from the idle state by two timer
ticks, so "at most one sampler cycle in flight at any time" is false. -/
theorem sampler_overlap_counterexample :
    Relation.ReflTransGen SchedStep ⟨0⟩ ⟨2⟩ ∧ (⟨2⟩ : SamplerSched).inFlight > 1 := by
  constructor
  · exact Relation.ReflTransGen.tail
      (Relation.ReflTransGen.tail Relation.ReflTransGen.refl (SchedStep.tick ⟨0⟩))
      (SchedStep.tick ⟨1⟩)
  · decide

/-- C5 (amended): every 10-second timer tick starts a new sampling
cycle unconditionally — the code installs `updateSystemStats` with no
in-progress guard — so when a cycle is still in flight at the next tick
a second concurrent cycle starts, and two cycles in flight are
reachable. -/
theorem sampler_tick_unguarded :
    (∀ s : SamplerSched, SchedStep s ⟨s.inFlight + 1⟩) ∧
    Relation.ReflTransGen SchedStep ⟨0⟩ ⟨2⟩ := by
  constructor
  · exact fun s => SchedStep.tick s
  · exact Relation.ReflTransGen.tail
      (Relation.ReflTransGen.tail Relation.ReflTransGen.refl (SchedStep.tick ⟨0⟩))
      (SchedStep.tick ⟨1⟩)

theorem batchExtract_ok_components {p : ProviderBatch}
    {cpuData : CurrentLoadInfo} {cpuTemp : CpuTempInfo} {memData : MemInfo}
    {networkData : List NetIfStats} {diskData : List FsVolume}
    (h : batchExtract p = .ok (cpuData, cpuTemp, memData, networkData, diskData)) :
    p.currentLoad = .ok cpuData ∧ p.cpuTemperature = .ok cpuTemp ∧
    p.mem = .ok memData ∧ p.networkStats = .ok networkData ∧
    p.fsSize = .ok diskData := by
  cases h1 : p.currentLoad with
  | error e => simp [batchExtract, h1, error_bind] at h
  | ok c =>
    cases h2 : p.cpuTemperature with
    | error e => simp [batchExtract, h1, h2, ok_bind, error_bind] at h
    | ok t =>
      cases h3 : p.mem with
      | error e => simp [batchExtract, h1, h2, h3, ok_bind, error_bind] at h
      | ok m =>
        cases h4 : p.networkStats with
        | error e => simp [batchExtract, h1, h2, h3, h4, ok_bind, error_bind] at h
        | ok n =>
          cases h5 : p.fsSize with
          | error e =>
              simp [batchExtract, h1, h2, h3, h4, h5, ok_bind, error_bind,
                map_error] at h
          | ok d =>
            simp only [batchExtract, h1, h2, h3, h4, h5, ok_bind, map_ok,
              Except.ok.injEq, Prod.mk.injEq] at h
            obtain ⟨rfl, rfl, rfl, rfl, rfl⟩ := h
            exact ⟨rfl, rfl, rfl, rfl, rfl⟩

/-- C3: if any of the five metric-provider queries of a sampling cycle
fails, the cycle is abandoned: the resulting state keeps `systemStats`
(and both logs) exactly as before — no field is partially updated — a
message is pushed on the operator-visible `console.error` channel, and
`updateSystemStats` still returns normally (the exception is caught, so
the process does not terminate). -/
theorem sampler_failure_keeps_snapshot :
    (∀ (now : String) (p : ProviderBatch) (st : ServerState) (e : String),
      batchExtract p = .error e →
      updateSystemStats now p st =
        { st with errors := ("Error updating system stats: " ++ e) :: st.errors }) ∧
    (∀ p : ProviderBatch,
      ((∃ e, p.currentLoad = .error e) ∨ (∃ e, p.cpuTemperature = .error e) ∨
       (∃ e, p.mem = .error e) ∨ (∃ e, p.networkStats = .error e) ∨
       (∃ e, p.fsSize = .error e)) →
      ∃ e, batchExtract p = .error e) := by
  constructor
  · intro now p st e h
    unfold updateSystemStats
    rw [h]
  · intro p hfail
    cases hbe : batchExtract p with
    | error e => exact ⟨e, rfl⟩
    | ok t =>
        obtain ⟨c, ct, m, n, d⟩ := t
        obtain ⟨h1, h2, h3, h4, h5⟩ := batchExtract_ok_components hbe
        rcases hfail with ⟨e, he⟩ | ⟨e, he⟩ | ⟨e, he⟩ | ⟨e, he⟩ | ⟨e, he⟩ <;>
          simp_all

/-- C3 witness: `sampler_failure_keeps_snapshot` applied to a batch
whose cpu-load query rejects, starting from the demo state. -/
theorem sampler_failure_keeps_snapshot_witness :
    updateSystemStats "t2" failBatch demoState =
      { demoState with
          errors := ("Error updating system stats: " ++ "ENOENT") :: demoState.errors } ∧
    (∃ e, batchExtract failBatch = .error e) := by
  obtain ⟨h1, h2⟩ := sampler_failure_keeps_snapshot
  exact ⟨h1 "t2" failBatch demoState "ENOENT" rfl,
    h2 failBatch (Or.inl ⟨"ENOENT", rfl⟩)⟩

/-- C9: in every snapshot produced by a successful sampling cycle,
`streams.active` and `streams.viewers` are 0 — the active-stream list
is literally `Object.keys({})` and viewers is the constant 0, with no
session input anywhere — regardless of the provider readings and of the
prior state. -/
theorem streams_counters_always_zero :
    (∀ (now : String) (cpuData : CurrentLoadInfo) (cpuTemp : CpuTempInfo)
        (memData : MemInfo) (networkData : List NetIfStats) (diskData : List FsVolume),
      (computeSystemStats now cpuData cpuTemp memData networkData diskData).streams.active = 0 ∧
      (computeSystemStats now cpuData cpuTemp memData networkData diskData).streams.viewers = 0) ∧
    (∀ (now : String) (p : ProviderBatch) (st : ServerState)
        (cpuData : CurrentLoadInfo) (cpuTemp : CpuTempInfo) (memData : MemInfo)
        (networkData : List NetIfStats) (diskData : List FsVolume),
      batchExtract p = .ok (cpuData, cpuTemp, memData, networkData, diskData) →
      (updateSystemStats now p st).systemStats.streams = ⟨0, 0⟩) := by
  constructor
  · intro now cpuData cpuTemp memData networkData diskData
    exact ⟨rfl, rfl⟩
  · intro now p st cpuData cpuTemp memData networkData diskData h
    rw [updateSystemStats_ok now p st cpuData cpuTemp memData networkData diskData h]
    split <;> rfl

/-- C9 witness: `streams_counters_always_zero` applied to the
successful 81%-cpu batch. -/
theorem streams_counters_always_zero_witness :
    (updateSystemStats "t3" alertBatch demoState).systemStats.streams = ⟨0, 0⟩ :=
  streams_counters_always_zero.2 "t3" alertBatch demoState ⟨81⟩ ⟨none⟩
    ⟨2 ^ 30, 2 ^ 31⟩ [] [] rfl

/-- C10: before any successful sampling cycle, readers of the
current-stats accessor observe the zero-initialized snapshot: every
numeric field of the initial `systemStats` literal is 0, it carries no
timestamp (`none`), the GET /api/performance handler returns the held
snapshot unchanged, and failed sampling cycles leave `systemStats`
untouched. -/
theorem initial_snapshot_all_zero :
    initialSystemStats.cpu.usage = 0 ∧ initialSystemStats.cpu.temp = 0 ∧
    initialSystemStats.memory.used = 0 ∧ initialSystemStats.memory.total = 0 ∧
    initialSystemStats.memory.percent = 0 ∧ initialSystemStats.network.rx = 0 ∧
    initialSystemStats.network.tx = 0 ∧ initialSystemStats.disk.used = 0 ∧
    initialSystemStats.disk.total = 0 ∧ initialSystemStats.disk.percent = 0 ∧
    initialSystemStats.streams.active = 0 ∧ initialSystemStats.streams.viewers = 0 ∧
    initialSystemStats.timestamp = none ∧
    (∀ (st : ServerState) (u : ℚ) (m : JSValue),
      (apiGetPerformance st u m).current = st.systemStats) ∧
    (∀ (now : String) (p : ProviderBatch) (st : ServerState) (e : String),
      batchExtract p = .error e →
      (updateSystemStats now p st).systemStats = st.systemStats) := by
  refine ⟨rfl, rfl, rfl, rfl, rfl, rfl, rfl, rfl, rfl, rfl, rfl, rfl, rfl, ?_, ?_⟩
  · intro st u m
    rfl
  · intro now p st e h
    unfold updateSystemStats
    rw [h]

/-- C10 witness: a failed first cycle from the initial state keeps the
zero-initialized snapshot that /api/performance serves. -/
theorem initial_snapshot_all_zero_witness :
    (updateSystemStats "t2" failBatch demoState).systemStats = demoState.systemStats ∧
    (apiGetPerformance demoState 0 (.obj [])).current = demoState.systemStats := by
  obtain ⟨-, -, -, -, -, -, -, -, -, -, -, -, -, hapi, hfail⟩ := initial_snapshot_all_zero
  exact ⟨hfail "t2" failBatch demoState "ENOENT" rfl, hapi demoState 0 (.obj [])⟩

/-- C4: after a successful sampling cycle, if `cpu.usage > 80` or
`memory.percent > 85` then exactly one `high_usage` performance entry
carrying the cpu usage, memory percentage and active-stream count and
exactly one system-tagged connection entry are appended (each store is
stepped by exactly one bounded-unshift); if neither threshold is
exceeded, both logs are left unchanged. -/
theorem threshold_alerting_appends (now : String) (p : ProviderBatch)
    (st : ServerState) (cpuData : CurrentLoadInfo) (cpuTemp : CpuTempInfo)
    (memData : MemInfo) (networkData : List NetIfStats) (diskData : List FsVolume)
    (h : batchExtract p = .ok (cpuData, cpuTemp, memData, networkData, diskData)) :
    ((computeSystemStats now cpuData cpuTemp memData networkData diskData).cpu.usage > 80 ∨
     (computeSystemStats now cpuData cpuTemp memData networkData diskData).memory.percent > 85 →
      (updateSystemStats now p st).performanceLogs =
        boundedUnshift maxPerformanceLogs
          ⟨now, "high_usage",
           highUsageData (computeSystemStats now cpuData cpuTemp memData networkData diskData)⟩
          st.performanceLogs ∧
      (updateSystemStats now p st).connectionLogs =
        boundedUnshift maxLogEntries
          ⟨now, "system",
           highUsageMessage (computeSystemStats now cpuData cpuTemp memData networkData diskData),
           .obj []⟩
          st.connectionLogs) ∧
    (¬((computeSystemStats now cpuData cpuTemp memData networkData diskData).cpu.usage > 80 ∨
       (computeSystemStats now cpuData cpuTemp memData networkData diskData).memory.percent > 85) →
      (updateSystemStats now p st).performanceLogs = st.performanceLogs ∧
      (updateSystemStats now p st).connectionLogs = st.connectionLogs) := by
  rw [updateSystemStats_ok now p st cpuData cpuTemp memData networkData diskData h]
  constructor
  · intro hc
    rw [if_pos hc]
    exact ⟨rfl, rfl⟩
  · intro hc
    rw [if_neg hc]
    exact ⟨rfl, rfl⟩

/-- C4 witness: `threshold_alerting_appends` at the 81%-cpu batch (one
alert pair appended) and at the 50%/50% batch (nothing appended), from
the demo state. -/
theorem threshold_alerting_appends_witness :
    ((updateSystemStats "t3" alertBatch demoState).performanceLogs =
      boundedUnshift maxPerformanceLogs ⟨"t3", "high_usage", highUsageData alertStats⟩
        demoState.performanceLogs ∧
     (updateSystemStats "t3" alertBatch demoState).connectionLogs =
      boundedUnshift maxLogEntries
        ⟨"t3", "system", highUsageMessage alertStats, .obj []⟩
        demoState.connectionLogs) ∧
    ((updateSystemStats "t5" quietBatch demoState).performanceLogs =
      demoState.performanceLogs ∧
     (updateSystemStats "t5" quietBatch demoState).connectionLogs =
      demoState.connectionLogs) := by
  constructor
  · exact (threshold_alerting_appends "t3" alertBatch demoState ⟨81⟩ ⟨none⟩
      ⟨2 ^ 30, 2 ^ 31⟩ [] [] rfl).1 (Or.inl (by norm_num [alertStats, computeSystemStats, round2, jsRound]))
  · exact (threshold_alerting_appends "t5" quietBatch demoState ⟨50⟩ ⟨none⟩
      ⟨2 ^ 30, 2 ^ 31⟩ [] [] rfl).2
      (by norm_num [computeSystemStats, round2, jsRound])

theorem sanitizeInit_depth_le (fs : List (String × JSValue))
    (hsp : (objGet fs "streamPath").depth = 0)
    (hargs : ∀ afs, objGet fs "args" = JSValue.obj afs →
      (objGet afs "app").depth = 0 ∧ (objGet afs "tcUrl").depth = 0 ∧
      (objGet afs "type").depth = 0) :
    ∀ kv ∈ sanitizeInit fs, kv.2.depth ≤ 1 := by
  intro kv hkv
  have hnil : ∀ kw ∈ ([] : List (String × JSValue)), kw.2.depth ≤ 1 :=
    fun kw hkw => absurd hkw (List.not_mem_nil kw)
  have hid : (if (objGet fs "id").typeofStr = "string" then objGet fs "id"
      else JSValue.str "[object]").depth ≤ 1 := by
    split
    · next hstr => rw [depth_eq_zero_of_typeof_string hstr]; omega
    · decide
  have hsp1 : (objGet fs "streamPath").depth ≤ 1 := by rw [hsp]; omega
  have hargsv : ((objGet fs "args").truthy &&
      ((objGet fs "args").typeofStr == "object")) = true →
      (JSValue.obj [("app", jsIndex (objGet fs "args") "app"),
        ("tcUrl", jsIndex (objGet fs "args") "tcUrl"),
        ("type", jsIndex (objGet fs "args") "type")]).depth ≤ 1 := by
    intro h
    have hh := h
    simp only [Bool.and_eq_true, beq_iff_eq] at hh
    obtain ⟨afs, hafs⟩ := truthy_object_is_obj hh.1 hh.2
    obtain ⟨h1, h2, h3⟩ := hargs afs hafs
    rw [hafs]
    simp only [jsIndex, JSValue.getProp, JSValue.depth, JSValue.depthFields]
    omega
  simp only [sanitizeInit] at hkv
  split at hkv
  · next ha =>
      split at hkv
      · split at hkv
        · exact objSet_values (P := fun v => v.depth ≤ 1)
            (objSet_values (P := fun v => v.depth ≤ 1)
              (objSet_values (P := fun v => v.depth ≤ 1) hnil hid) hsp1)
            (hargsv ha) kv hkv
        · exact objSet_values (P := fun v => v.depth ≤ 1)
            (objSet_values (P := fun v => v.depth ≤ 1) hnil hsp1)
            (hargsv ha) kv hkv
      · split at hkv
        · exact objSet_values (P := fun v => v.depth ≤ 1)
            (objSet_values (P := fun v => v.depth ≤ 1) hnil hid)
            (hargsv ha) kv hkv
        · exact objSet_values (P := fun v => v.depth ≤ 1) hnil (hargsv ha) kv hkv
  · split at hkv
    · split at hkv
      · exact objSet_values (P := fun v => v.depth ≤ 1)
          (objSet_values (P := fun v => v.depth ≤ 1) hnil hid) hsp1 kv hkv
      · exact objSet_values (P := fun v => v.depth ≤ 1) hnil hsp1 kv hkv
    · split at hkv
      · exact objSet_values (P := fun v => v.depth ≤ 1) hnil hid kv hkv
      · exact absurd hkv (List.not_mem_nil kv)

/-- C2 (amended): for every object payload the sanitization of `addLog`
terminates and returns normally, but its output is flat only away from
`streamPath` and `args`: the values of the payload's `args.app`,
`args.tcUrl` and `args.type` (and a truthy `streamPath`) are copied
verbatim, so the output is free of containers nested beyond one level
whenever those copied values are scalars, and it can raise or nest
arbitrarily deep otherwise (see the counterexample). -/
theorem sanitize_total_and_flat :
    (∀ fs : List (String × JSValue),
      sanitizeData (.obj fs) = .ok (.obj (sanitizeFields fs))) ∧
    (∀ fs : List (String × JSValue),
      (objGet fs "streamPath").depth = 0 →
      (∀ afs, objGet fs "args" = JSValue.obj afs →
        (objGet afs "app").depth = 0 ∧ (objGet afs "tcUrl").depth = 0 ∧
        (objGet afs "type").depth = 0) →
      (JSValue.obj (sanitizeFields fs)).depth ≤ 2) := by
  refine ⟨sanitizeData_obj, ?_⟩
  intro fs hsp hargs
  have hvals : ∀ kv ∈ sanitizeFields fs, kv.2.depth ≤ 1 := by
    have hinit := sanitizeInit_depth_le fs hsp hargs
    simp only [sanitizeFields]
    exact foldl_copyStep_values (P := fun v => v.depth ≤ 1)
      (fun v hv => by
        show v.depth ≤ 1
        rw [depth_eq_zero_of_typeof_ne_object hv]
        omega)
      fs _ hinit
  have hf := depthFields_le hvals
  simp only [JSValue.depth]
  omega

/-- C2 witness: `sanitize_total_and_flat` at the object payload
`\x7b a: "b" \x7d`, whose sanitized output is nested at most one
level. -/
theorem sanitize_total_and_flat_witness :
    sanitizeData (.obj [("a", .str "b")]) =
      .ok (.obj (sanitizeFields [("a", .str "b")])) ∧
    (JSValue.obj (sanitizeFields [("a", .str "b")])).depth ≤ 2 :=
  ⟨sanitize_total_and_flat.1 [("a", .str "b")],
   sanitize_total_and_flat.2 [("a", .str "b")] rfl
     (fun _ h => JSValue.noConfusion h)⟩

/-- C2 counterexample: the claim fails as stated.  On the payload
`\x7b args: \x7b app: \x7b x: 1 \x7d \x7d \x7d` the sanitizer copies
`args.app` verbatim, so the output nests containers two levels below
the top (depth 3), not at most one; and on a `null` payload the
sanitization inside `addLog` throws instead of returning a record. -/
theorem sanitize_nesting_counterexample :
    sanitizeData (.obj [("args", .obj [("app", .obj [("x", .num 1)])])]) =
      .ok (.obj [("args",
        .obj [("app", .obj [("x", .num 1)]), ("tcUrl", .undefined), ("type", .undefined)])]) ∧
    (JSValue.obj [("args",
      .obj [("app", .obj [("x", .num 1)]), ("tcUrl", .undefined), ("type", .undefined)])]).depth = 3 ∧
    addLog "t0" "connection" "event" .null demoState =
      .error "TypeError: cannot read properties of null" :=
  ⟨rfl, rfl, rfl⟩

/-- C6 (amended): on an object payload, the sanitized output's `id` is
the payload's `id` when that id is truthy and a string, the placeholder
`"[object]"` when the id is truthy and not a string, the raw id again
when the id is falsy but neither object- nor function-typed (the
catch-all copy loop picks it up, e.g. for `id = 0` or `id = ""`), and
absent otherwise (e.g. `id = null`); `streamPath` is retained exactly
when it is truthy or falsy-but-not-object/function-typed, i.e. a
present `streamPath: null` is dropped. -/
theorem sanitize_id_streamPath_amended (fs : List (String × JSValue))
    (hnd : (fs.map Prod.fst).Nodup) :
    olookup (sanitizeFields fs) "id" =
      (if (objGet fs "id").truthy then
        some (if (objGet fs "id").typeofStr = "string" then objGet fs "id"
              else .str "[object]")
      else if "id" ∈ fs.map Prod.fst ∧ (objGet fs "id").typeofStr ≠ "object" ∧
          (objGet fs "id").typeofStr ≠ "function" then some (objGet fs "id")
      else none) ∧
    olookup (sanitizeFields fs) "streamPath" =
      (if (objGet fs "streamPath").truthy then some (objGet fs "streamPath")
      else if "streamPath" ∈ fs.map Prod.fst ∧
          (objGet fs "streamPath").typeofStr ≠ "object" ∧
          (objGet fs "streamPath").typeofStr ≠ "function" then
        some (objGet fs "streamPath")
      else none) := by
  constructor
  · by_cases hmem : ("id" : String) ∈ fs.map Prod.fst
    · rw [show sanitizeFields fs =
          (fs.map Prod.fst).foldl (copyStep fs) (sanitizeInit fs) from rfl,
        foldl_copyStep_mem fs _ hnd hmem]
      by_cases htr : (objGet fs "id").truthy = true
      · have hini := sanitizeInit_lookup_id fs
        rw [if_pos htr] at hini
        have hog : objGet (sanitizeInit fs) "id" =
            (if (objGet fs "id").typeofStr = "string" then objGet fs "id"
             else JSValue.str "[object]") := by
          rw [objGet, hini]
          rfl
        have hvt : (if (objGet fs "id").typeofStr = "string" then objGet fs "id"
            else JSValue.str "[object]").truthy = true := by
          split
          · exact htr
          · decide
        rw [hog, hvt]
        simp only [Bool.not_true, Bool.false_and]
        rw [hini, if_pos htr]
        rfl
      · have hini := sanitizeInit_lookup_id fs
        rw [if_neg htr] at hini
        have hog : objGet (sanitizeInit fs) "id" = .undefined := by
          rw [objGet, hini]
          rfl
        rw [hog, hini, if_neg htr]
        simp only [show JSValue.undefined.truthy = false from rfl, Bool.not_false,
          Bool.true_and]
        by_cases ht1 : (objGet fs "id").typeofStr = "object"
        · simp [ht1, hmem]
        · by_cases ht2 : (objGet fs "id").typeofStr = "function"
          · simp [ht1, ht2, hmem]
          · simp [ht1, ht2, hmem]
    · rw [show sanitizeFields fs =
          (fs.map Prod.fst).foldl (copyStep fs) (sanitizeInit fs) from rfl,
        foldl_copyStep_notmem fs _ hmem, sanitizeInit_lookup_id]
      by_cases htr : (objGet fs "id").truthy = true
      · rw [if_pos htr, if_pos htr]
      · rw [if_neg htr, if_neg htr, if_neg (fun hh => hmem hh.1)]
  · by_cases hmem : ("streamPath" : String) ∈ fs.map Prod.fst
    · rw [show sanitizeFields fs =
          (fs.map Prod.fst).foldl (copyStep fs) (sanitizeInit fs) from rfl,
        foldl_copyStep_mem fs _ hnd hmem]
      by_cases htr : (objGet fs "streamPath").truthy = true
      · have hini := sanitizeInit_lookup_streamPath fs
        rw [if_pos htr] at hini
        have hog : objGet (sanitizeInit fs) "streamPath" = objGet fs "streamPath" := by
          rw [objGet, hini]
          rfl
        rw [hog, htr]
        simp only [Bool.not_true, Bool.false_and]
        rw [hini]
        simp
      · have hini := sanitizeInit_lookup_streamPath fs
        rw [if_neg htr] at hini
        have hog : objGet (sanitizeInit fs) "streamPath" = .undefined := by
          rw [objGet, hini]
          rfl
        rw [hog, hini, if_neg htr]
        simp only [show JSValue.undefined.truthy = false from rfl, Bool.not_false,
          Bool.true_and]
        by_cases ht1 : (objGet fs "streamPath").typeofStr = "object"
        · simp [ht1, hmem]
        · by_cases ht2 : (objGet fs "streamPath").typeofStr = "function"
          · simp [ht1, ht2, hmem]
          · simp [ht1, ht2, hmem]
    · rw [show sanitizeFields fs =
          (fs.map Prod.fst).foldl (copyStep fs) (sanitizeInit fs) from rfl,
        foldl_copyStep_notmem fs _ hmem, sanitizeInit_lookup_streamPath]
      by_cases htr : (objGet fs "streamPath").truthy = true
      · rw [if_pos htr, if_pos htr]
      · rw [if_neg htr, if_neg htr, if_neg (fun hh => hmem hh.1)]

/-- C6 witness: `sanitize_id_streamPath_amended` at the well-behaved
payload `\x7b id: "abc", streamPath: "/live/cam1" \x7d`: both fields
come through verbatim. -/
theorem sanitize_id_streamPath_amended_witness :
    olookup (sanitizeFields [("id", .str "abc"), ("streamPath", .str "/live/cam1")])
      "id" = some (.str "abc") ∧
    olookup (sanitizeFields [("id", .str "abc"), ("streamPath", .str "/live/cam1")])
      "streamPath" = some (.str "/live/cam1") := by
  obtain ⟨hi, hs⟩ := sanitize_id_streamPath_amended
    [("id", .str "abc"), ("streamPath", .str "/live/cam1")] (by decide)
  rw [hi, hs]
  exact ⟨rfl, rfl⟩

/-- C6 counterexample: the claim fails as stated.  On the payload
`\x7b id: 0, streamPath: null \x7d` the output contains `id = 0` — so
an id is present although it is not a plain string, and the placeholder
is not used for this non-string id — and the present `streamPath` field
is dropped rather than retained. -/
theorem id_streamPath_counterexample :
    sanitizeData (.obj [("id", .num 0), ("streamPath", .null)]) =
      .ok (.obj [("id", .num 0)]) ∧
    (JSValue.num 0).typeofStr ≠ "string" ∧
    JSValue.num 0 ≠ JSValue.str "[object]" ∧
    olookup [("id", .num 0)] "streamPath" = none := by
  refine ⟨rfl, by decide, fun h => JSValue.noConfusion h, rfl⟩

/-- C7 (amended): on an object payload with distinct keys, a top-level
field other than `id`, `streamPath` and `args` is copied to the output
exactly when its value's `typeof` is neither `"object"` nor
`"function"` — that is, strings, numbers, booleans and also `undefined`
are copied, while `null`, objects and functions are dropped silently
(the sanitization still returns normally). -/
theorem copy_scalar_fields_amended (fs : List (String × JSValue)) (k : String)
    (hnd : (fs.map Prod.fst).Nodup) (h1 : k ≠ "id") (h2 : k ≠ "streamPath")
    (h3 : k ≠ "args") :
    sanitizeData (.obj fs) = .ok (.obj (sanitizeFields fs)) ∧
    olookup (sanitizeFields fs) k =
      (if k ∈ fs.map Prod.fst ∧ (objGet fs k).typeofStr ≠ "object" ∧
          (objGet fs k).typeofStr ≠ "function" then some (objGet fs k)
      else none) := by
  refine ⟨sanitizeData_obj fs, ?_⟩
  by_cases hmem : k ∈ fs.map Prod.fst
  · rw [show sanitizeFields fs =
        (fs.map Prod.fst).foldl (copyStep fs) (sanitizeInit fs) from rfl,
      foldl_copyStep_mem fs _ hnd hmem]
    have hog : objGet (sanitizeInit fs) k = .undefined := by
      rw [objGet, sanitizeInit_lookup_other fs h1 h2 h3]
      rfl
    rw [hog, sanitizeInit_lookup_other fs h1 h2 h3]
    simp only [show JSValue.undefined.truthy = false from rfl, Bool.not_false,
      Bool.true_and]
    by_cases ht1 : (objGet fs k).typeofStr = "object"
    · simp [ht1, hmem]
    · by_cases ht2 : (objGet fs k).typeofStr = "function"
      · simp [ht1, ht2, hmem]
      · simp [ht1, ht2, hmem]
  · rw [show sanitizeFields fs =
        (fs.map Prod.fst).foldl (copyStep fs) (sanitizeInit fs) from rfl,
      foldl_copyStep_notmem fs _ hmem, sanitizeInit_lookup_other fs h1 h2 h3,
      if_neg (fun hh => hmem hh.1)]

/-- C7 witness: `copy_scalar_fields_amended` at the payload
`\x7b foo: "bar" \x7d`: the scalar field `foo` is copied through. -/
theorem copy_scalar_fields_amended_witness :
    sanitizeData (.obj [("foo", .str "bar")]) =
      .ok (.obj (sanitizeFields [("foo", .str "bar")])) ∧
    olookup (sanitizeFields [("foo", .str "bar")]) "foo" = some (.str "bar") := by
  obtain ⟨ho, hl⟩ := copy_scalar_fields_amended [("foo", .str "bar")] "foo"
    (by decide) (by decide) (by decide) (by decide)
  rw [hl]
  exact ⟨ho, rfl⟩

/-- C7 counterexample: the claim fails as stated.  On the payload
`\x7b foo: undefined \x7d` the field `foo` is copied to the output even
though its value `undefined` is not a scalar string, number or
boolean. -/
theorem copy_undefined_counterexample :
    sanitizeData (.obj [("foo", .undefined)]) = .ok (.obj [("foo", .undefined)]) ∧
    JSValue.undefined.typeofStr ≠ "string" ∧ JSValue.undefined.typeofStr ≠ "number" ∧
    JSValue.undefined.typeofStr ≠ "boolean" :=
  ⟨rfl, by decide, by decide, by decide⟩

end RtmpServer
